import Mathlib

/-!
Shallow embedding of the transfer-and-cache subsystem of mcvm
(source: src/net/net.cc).

The C++ code drives libcurl: a `DownloadHelper` owns one curl easy handle,
a `CurlResult` sink (a `FILE*` and a `std::string`), an error buffer and
progress data; a `MultiDownloadHelper` owns a curl multi handle and a map
from easy handle to helper.  We model the operating system (disk contents,
open file table, fclose log, console output, count of network exchanges)
as an explicit `OS` state threaded through the operations, and the
behaviour of the external transport (the byte chunks curl delivers to the
write callback, the final `CURLcode`, the error text curl puts in the
registered error buffer) as an `Exchange` value supplied by the
environment.  File contents and byte buffers are `List Nat`.
-/

namespace mcvm

abbrev Bytes := List Nat

/-- Association-list lookup (models `std::map`-style lookup and
filesystem path lookup). -/
def lookupA {β : Type} (k : String) : List (String × β) → Option β
  | [] => none
  | (k', v) :: rest => if k = k' then some v else lookupA k rest

/-- Association-list update: set the value at a key (insert at front if
absent). -/
def setA {β : Type} (k : String) (v : β) : List (String × β) → List (String × β)
  | [] => [(k, v)]
  | (k', v') :: rest => if k = k' then (k, v) :: rest else (k', v') :: setA k v rest

/-- Numeric-key association-list lookup (open-file table, keyed by the
numeric `FILE*` handle id). -/
def lookupN {β : Type} (k : Nat) : List (Nat × β) → Option β
  | [] => none
  | (k', v) :: rest => if k = k' then some v else lookupN k rest

/-- Remove a numeric key from an association list (closing a handle,
`std::map::erase`). -/
def removeN {β : Type} (k : Nat) : List (Nat × β) → List (Nat × β)
  | [] => []
  | (k', v) :: rest => if k = k' then removeN k rest else (k', v) :: removeN k rest

/-- Console output events: `OUT_REPL` lines (in-place progress
re-rendering), `OUT_NEWLINE`, and `ERR` messages. -/
inductive OutEvent : Type
  | repl : String → OutEvent
  | newline : OutEvent
  | errmsg : String → OutEvent
deriving DecidableEq, Repr

/-- The operating-system state visible to net.cc: on-disk file contents
by path, the set of paths where `fopen(path, "wb")` fails (with the
`errno` it sets), the table of open `FILE*` handles, a counter producing
fresh handle ids, the log of every `fclose` call (by handle id, so a
double close is visible as a repeated entry), the number of network
exchanges performed, and the console output. -/
structure OS : Type where
  disk : List (String × Bytes)
  failPaths : List (String × Nat)
  openh : List (Nat × String)
  next : Nat
  closes : List Nat
  netCalls : Nat
  out : List OutEvent
deriving DecidableEq, Repr

/-- Append a console output event. -/
def emit (e : OutEvent) (os : OS) : OS :=
  { os with out := os.out ++ [e] }

/-- Model of `fopen(path, "wb")`: fails (returning `none`) exactly on the
paths in `failPaths`; on success allocates a fresh handle and truncates
the file to empty (binary write mode creates/truncates). -/
def fopen_wb (path : String) (os : OS) : Option Nat × OS :=
  match lookupA path os.failPaths with
  | some _ => (none, os)
  | none =>
    (some os.next,
      { os with
        next := os.next + 1
        openh := (os.next, path) :: os.openh
        disk := setA path [] os.disk })

/-- Model of `fwrite` on an open handle: appends the buffer to the file
the handle targets and reports the full count; a write on a handle that
is not open writes nothing and reports 0. -/
def fwrite (buf : Bytes) (hd : Nat) (os : OS) : Nat × OS :=
  match lookupN hd os.openh with
  | some p =>
    (buf.length, { os with disk := setA p ((lookupA p os.disk).getD [] ++ buf) os.disk })
  | none => (0, os)

/-- Model of `fclose`: removes the handle from the open-file table and
logs the close; every call is logged, so `fclose` on an already-closed
(dangling) handle appears as a second log entry for the same id. -/
def fclose (hd : Nat) (os : OS) : OS :=
  { os with openh := removeN hd os.openh, closes := os.closes ++ [hd] }

/-- Number of times a given handle id has been passed to `fclose`. -/
def closeCount (hd : Nat) (os : OS) : Nat :=
  os.closes.count hd

/-- The `CurlResult` sink of net.hh: a raw `FILE*` (modelled as an
optional numeric handle id; note the id is a plain pointer value, so it
can remain `some hd` after the handle was closed, exactly like a dangling
`FILE*`) and the in-memory `std::string` buffer. -/
structure CurlResult : Type where
  file : Option Nat
  str : Bytes
deriving DecidableEq, Repr

/-- The `FileOpenError` thrown by `DownloadHelper::set_options`, carrying
the path and the `errno` value. -/
structure FileOpenError : Type where
  path : String
  code : Nat
deriving DecidableEq, Repr

/-- The `DownloadMode` enum of `DownloadHelper`. -/
inductive DownloadMode : Type
  | FILE : DownloadMode
  | STR : DownloadMode
  | FILE_AND_STR : DownloadMode
deriving DecidableEq, Repr

/-- Which write callback is installed on the curl handle via
`CURLOPT_WRITEFUNCTION` (none after a reset, before `set_options` picks
one). -/
inductive WriteFunc : Type
  | toFile : WriteFunc
  | toStr : WriteFunc
  | toBoth : WriteFunc
deriving DecidableEq, Repr

/-- Modelled from the spec: `ProgressData::ProgressStyle` is declared in
net.hh, which is not part of the sources; the spec only calls it a
"style tag", so it is a single-tag type here. -/
inductive ProgressStyle : Type
  | default_style : ProgressStyle
deriving DecidableEq, Repr

/-- The `ProgressData` of net.hh: style tag, title and `is_used` flag. -/
structure ProgressData : Type where
  is_used : Bool
  style : ProgressStyle
  title : String
deriving DecidableEq, Repr

/-- Write callback `write_data_to_file` (net.cc): `fwrite` the buffer to
`curl_result->file` and return the count `fwrite` reports.  The C code
passes the raw `FILE*`; a null pointer here (file never opened) is
outside the component's contract, modelled as a zero-length write. -/
def write_data_to_file (buf : Bytes) (r : CurlResult) (os : OS) : Nat × CurlResult × OS :=
  match r.file with
  | some hd =>
    let w := fwrite buf hd os
    (w.1, r, w.2)
  | none => (0, r, os)

/-- Write callback `write_data_to_str` (net.cc): append the buffer to
`curl_result->str` and return `size * nmemb`, i.e. the full buffer
length. -/
def write_data_to_str (buf : Bytes) (r : CurlResult) (os : OS) : Nat × CurlResult × OS :=
  (buf.length, { r with str := r.str ++ buf }, os)

/-- Write callback `write_data_to_file_and_str` (net.cc): first the file
write, then the string write (whose returned count is discarded), and the
file write's count is returned. -/
def write_data_to_file_and_str (buf : Bytes) (r : CurlResult) (os : OS) : Nat × CurlResult × OS :=
  let wfile := write_data_to_file buf r os
  let wstr := write_data_to_str buf wfile.2.1 wfile.2.2
  (wfile.1, wstr.2.1, wstr.2.2)

/-- Dispatch on the installed `CURLOPT_WRITEFUNCTION`.  With none
installed the delivered chunk goes nowhere we track (curl's default
writes to stdout; `perform` without `configure` is outside the
contract). -/
def invoke_write (wf : Option WriteFunc) (buf : Bytes) (r : CurlResult) (os : OS) :
    Nat × CurlResult × OS :=
  match wf with
  | some WriteFunc.toFile => write_data_to_file buf r os
  | some WriteFunc.toStr => write_data_to_str buf r os
  | some WriteFunc.toBoth => write_data_to_file_and_str buf r os
  | none => (0, r, os)

/-- Chunk-by-chunk delivery performed inside `curl_easy_perform`: each
received chunk is handed to the installed write callback in transport
order. -/
def deliver (wf : Option WriteFunc) (chunks : List Bytes) (r : CurlResult) (os : OS) :
    CurlResult × OS :=
  match chunks with
  | [] => (r, os)
  | c :: rest =>
    let w := invoke_write wf c r os
    deliver wf rest w.2.1 w.2.2

/-- The transport side of one `curl_easy_perform` call, supplied by the
environment: the byte chunks delivered to the write callback, the final
`CURLcode` (0 is `CURLE_OK`), and the error text curl stores in the
registered `CURLOPT_ERRORBUFFER` when the code is nonzero. -/
structure Exchange : Type where
  chunks : List Bytes
  code : Nat
  errtext : String
deriving DecidableEq, Repr

/-- The `DownloadHelper` state: the configuration held by its curl easy
handle (url, installed write callback, and whether the `errbuf` member
is currently registered as the handle's `CURLOPT_ERRORBUFFER` — the
constructor registers it, but `curl_easy_reset` re-initializes every
option to its default, dropping the registration, and nothing ever
re-registers it), the `CurlResult` sink, the error buffer and the
progress data. -/
structure DownloadHelper : Type where
  url : String
  writefunc : Option WriteFunc
  res : CurlResult
  errbuf : String
  errbuf_registered : Bool
  progress_data : ProgressData
deriving DecidableEq, Repr

/-- The `DownloadHelper` constructor: initializes the curl handle,
registers the error buffer and clears it (`errbuf[0] = 0`).
Modelled from the spec: the member initializers of `CurlResult` and
`ProgressData` live in net.hh, which is not part of the sources; per the
spec's data model the sink starts with no open file handle and an empty
buffer, and `is_used` is written only by `add_progress_meter`, so it
starts false. -/
def DownloadHelper.init : DownloadHelper :=
  { url := ""
    writefunc := none
    res := { file := none, str := [] }
    errbuf := ""
    errbuf_registered := true
    progress_data := { is_used := false, style := ProgressStyle.default_style, title := "" } }

/-- Model of `DownloadHelper::set_options` (net.cc): reset the curl
handle's configuration — `curl_easy_reset` re-initializes every option
to its default, so the url, the write callback and the
`CURLOPT_ERRORBUFFER` registration made in the constructor are all
dropped, and the function never re-registers the error buffer — clear
the string buffer, `fclose` the previous file pointer if it is non-null
(note the source does not null the pointer afterwards), set the url,
open the destination for binary writing when the mode targets a file —
throwing `FileOpenError` with the path and `errno` when the open fails,
after printing an error — and install the write callback matching the
mode.  A thrown exception is the `Except.error` branch, carrying the
helper and OS state at the throw point. -/
def set_options (h : DownloadHelper) (mode : DownloadMode) (url : String) (path : String)
    (os : OS) : Except (FileOpenError × DownloadHelper × OS) (DownloadHelper × OS) :=
  let res1 : CurlResult := { h.res with str := [] }
  let h1 : DownloadHelper :=
    { h with url := "", writefunc := none, errbuf_registered := false, res := res1 }
  let os1 : OS :=
    match h1.res.file with
    | some hd => fclose hd os
    | none => os
  let h2 : DownloadHelper := { h1 with url := url }
  match mode with
  | DownloadMode.FILE =>
    match fopen_wb path os1 with
    | (none, os2) =>
      Except.error
        ({ path := path, code := (lookupA path os2.failPaths).getD 0 }, h2,
          emit (OutEvent.errmsg "Downloader failed to open file!") os2)
    | (some hd, os2) =>
      let res2 : CurlResult := { h2.res with file := some hd }
      Except.ok ({ h2 with res := res2, writefunc := some WriteFunc.toFile }, os2)
  | DownloadMode.STR =>
    Except.ok ({ h2 with writefunc := some WriteFunc.toStr }, os1)
  | DownloadMode.FILE_AND_STR =>
    match fopen_wb path os1 with
    | (none, os2) =>
      Except.error
        ({ path := path, code := (lookupA path os2.failPaths).getD 0 }, h2,
          emit (OutEvent.errmsg "Downloader failed to open file!") os2)
    | (some hd, os2) =>
      let res2 : CurlResult := { h2.res with file := some hd }
      Except.ok ({ h2 with res := res2, writefunc := some WriteFunc.toBoth }, os2)

/-- Model of `DownloadHelper::perform` (net.cc): run the exchange
(`curl_easy_perform` delivers every chunk through the installed write
callback, counts as one network call, and on failure stores the error
text in the buffer registered via `CURLOPT_ERRORBUFFER` — but only when
one is registered: after `set_options`' `curl_easy_reset` the
registration made in the constructor is gone, so curl writes nothing
and the member keeps its previous contents), then `fclose` the file
pointer if it is non-null and null it, then print a newline if the
progress meter is in use, then on a nonzero code print the error buffer
and return false, else return true.  The function is total: transport
failure is a returned value, never an exception. -/
def perform (h : DownloadHelper) (ex : Exchange) (os : OS) : Bool × DownloadHelper × OS :=
  let d := deliver h.writefunc ex.chunks h.res { os with netCalls := os.netCalls + 1 }
  let errbuf1 :=
    if h.errbuf_registered ∧ ex.code ≠ 0 then ex.errtext else h.errbuf
  let r1 := d.1
  let closed : CurlResult × OS :=
    match r1.file with
    | some hd => ({ r1 with file := none }, fclose hd d.2)
    | none => (r1, d.2)
  let os1 := if h.progress_data.is_used then emit OutEvent.newline closed.2 else closed.2
  let h1 : DownloadHelper := { h with res := closed.1, errbuf := errbuf1 }
  if ex.code ≠ 0 then
    (false, h1, emit (OutEvent.errmsg errbuf1) os1)
  else
    (true, h1, os1)

/-- Model of `DownloadHelper::sha1_checksum` (net.cc): the body is a
`TODO` that returns true unconditionally. -/
def sha1_checksum (h : DownloadHelper) (checksum : String) : Bool :=
  true

/-- Model of `DownloadHelper::add_progress_meter` (net.cc): the entire
body is commented out, so the call changes nothing. -/
def add_progress_meter (h : DownloadHelper) (style : ProgressStyle) (title : String) :
    DownloadHelper :=
  h

/-- Model of `DownloadHelper::get_str` (net.cc). -/
def get_str (h : DownloadHelper) : Bytes :=
  h.res.str

/-- Model of `DownloadHelper::get_err` (net.cc). -/
def get_err (h : DownloadHelper) : String :=
  h.errbuf

/-- Model of the `DownloadHelper` destructor (net.cc): clean up the curl
handle and `fclose` the file pointer if it is non-null. -/
def DownloadHelper.destroy (h : DownloadHelper) (os : OS) : OS :=
  match h.res.file with
  | some hd => fclose hd os
  | none => os

/-- The `CURL_PROGRESSFUNC_CONTINUE` return value of a curl progress
callback. -/
def CURL_PROGRESSFUNC_CONTINUE : Int := 0x10000001

/-- The 10-segment bar built by `progress_callback`: segment `i` is a dot
when `i < count`, a space otherwise (`intervals` is the static constant
10 in the source). -/
def progress_bar_render (count : ℤ) : String :=
  String.mk ((List.range 10).map fun i => if (i : ℤ) < count then '.' else ' ')

/-- Model of `progress_callback` (net.cc).  The C doubles `dltotal` and
`dlnow` are modelled as rationals (curl reports nonnegative byte counts,
and the claims only exercise exactly-representable values, where double
and rational arithmetic agree).  When both are nonzero the callback
rounds `dlnow / dltotal * 10` to get the filled-segment count, renders
the bar, and re-renders the line in place via `OUT_REPL`; it always
returns `CURL_PROGRESSFUNC_CONTINUE`. -/
def progress_callback (data : ProgressData) (dltotal dlnow : ℚ) (os : OS) : Int × OS :=
  if dltotal ≠ 0 ∧ dlnow ≠ 0 then
    let count : ℤ := round (dlnow / dltotal * 10)
    (CURL_PROGRESSFUNC_CONTINUE,
      emit (OutEvent.repl (data.title ++ "[" ++ progress_bar_render count ++ "]")) os)
  else
    (CURL_PROGRESSFUNC_CONTINUE, os)

/-- Modelled from the spec: `file_exists` is declared in the library
headers (lib/io), which are not part of the sources; per the spec it is
a plain existence check on the local filesystem. -/
def file_exists (path : String) (os : OS) : Bool :=
  (lookupA path os.disk).isSome

/-- Modelled from the spec: `read_file` is declared in the library
headers (lib/io), which are not part of the sources; per the spec it
reads back the full file contents (no partial reads). -/
def read_file (path : String) (os : OS) : Bytes :=
  (lookupA path os.disk).getD []

/-- Model of `download_cached_file` (net.cc): if the path exists, return
its contents when `download_str` and an empty string otherwise, touching
nothing else; if not, pick `FILE_AND_STR` or `FILE` mode, call
`set_options` (whose `FileOpenError` propagates out) and `perform`
(whose boolean result the source ignores), and return `get_str`. -/
def download_cached_file (url path : String) (download_str : Bool)
    (helper : DownloadHelper) (os : OS) (ex : Exchange) :
    Except (FileOpenError × DownloadHelper × OS) (Bytes × DownloadHelper × OS) :=
  if file_exists path os then
    if download_str then
      Except.ok (read_file path os, helper, os)
    else
      Except.ok ([], helper, os)
  else
    let mode := if download_str then DownloadMode.FILE_AND_STR else DownloadMode.FILE
    match set_options helper mode url path os with
    | Except.error e => Except.error e
    | Except.ok (h1, os1) =>
      let p := perform h1 ex os1
      Except.ok (get_str p.2.1, p.2.1, p.2.2)

/-- One iteration's worth of external curl-multi behaviour inside
`MultiDownloadHelper::perform_blocking`, supplied by the environment:
the `CURLMcode` returned by `curl_multi_perform`, the running-handle
count it stores through its out-parameter (the member the source calls
`msgs_in_queue`), the `CURLMcode` returned by `curl_multi_poll` (read
only when the running count is nonzero), and the easy handles reported
`CURLMSG_DONE` by the `curl_multi_info_read` drain that follows. -/
structure MultiStep : Type where
  perf_code : Nat
  running : Nat
  poll_code : Nat
  done : List Nat
deriving DecidableEq, Repr

/-- The `MultiDownloadHelper` state: the map from easy handle id to the
shared helper, and the `msgs_in_queue` member. -/
structure MultiState : Type where
  helpers : List (Nat × DownloadHelper)
  msgs_in_queue : Nat
deriving DecidableEq, Repr

/-- The `MultiDownloadHelper` constructor.  Modelled from the spec: the
member initializer of `msgs_in_queue` lives in net.hh, which is not part
of the sources; the source's own reset comment ("Set to one so that the
while loop starts") fixes it at 1. -/
def MultiState.init : MultiState :=
  { helpers := [], msgs_in_queue := 1 }

/-- Model of `MultiDownloadHelper::add_helper`: insert the helper into
the map under its easy handle id and register the handle with the
multiplexer. -/
def add_helper (st : MultiState) (hd : Nat) (helper : DownloadHelper) : MultiState :=
  { st with helpers := (hd, helper) :: st.helpers }

/-- The inner `curl_multi_info_read` drain of `perform_blocking`: each
handle reported done is removed from the native multiplexer and erased
from the map together. -/
def drain_done (done : List Nat) (helpers : List (Nat × DownloadHelper)) :
    List (Nat × DownloadHelper) :=
  match done with
  | [] => helpers
  | d :: rest => drain_done rest (removeN d helpers)

/-- The `while (msgs_in_queue)` loop of `perform_blocking` (net.cc), one
`MultiStep` of environment behaviour per iteration: store the running
count, poll (only when the count is nonzero), break out of the loop on a
nonzero `CURLMcode` — before the drain — and otherwise drain the done
handles and continue.  `none` means the supplied trace ended before the
loop did. -/
def perform_blocking_loop : MultiState → List MultiStep → Option MultiState
  | st, trace =>
    if st.msgs_in_queue = 0 then
      some st
    else
      match trace with
      | [] => none
      | step :: rest =>
        let st1 : MultiState := { st with msgs_in_queue := step.running }
        let code := if step.running ≠ 0 then step.poll_code else step.perf_code
        if code ≠ 0 then
          some st1
        else
          perform_blocking_loop { st1 with helpers := drain_done step.done st1.helpers } rest

/-- Model of `MultiDownloadHelper::perform_blocking` (net.cc): run the
drain loop, then reset `msgs_in_queue` to 1 and return true — the
source returns true on every path (its error handling is a `TODO`), and
its `assert(helpers.empty())` is a debug-build check with no effect on
the returned value. -/
def perform_blocking (st : MultiState) (trace : List MultiStep) : Option (Bool × MultiState) :=
  match perform_blocking_loop st trace with
  | none => none
  | some st1 => some (true, { st1 with msgs_in_queue := 1 })

/-- Model of `MultiDownloadHelper::get_helper_count` (net.cc): the size
of the registration map. -/
def get_helper_count (st : MultiState) : Nat :=
  st.helpers.length

/-- Model of `MultiDownloadHelper::reset` (net.cc): an empty body. -/
def multi_reset (st : MultiState) : MultiState :=
  st

/-! Helper lemmas about the association-list primitives and about chunk
delivery. -/

theorem lookupA_setA_self {β : Type} (k : String) (v : β) (l : List (String × β)) :
    lookupA k (setA k v l) = some v := by
  induction l with
  | nil => simp [setA, lookupA]
  | cons p rest ih =>
    obtain ⟨k', v'⟩ := p
    by_cases h : k = k' <;> simp [setA, lookupA, h, ih]

theorem setA_self {β : Type} (k : String) (v : β) (l : List (String × β))
    (h : lookupA k l = some v) : setA k v l = l := by
  induction l with
  | nil => simp [lookupA] at h
  | cons p rest ih =>
    obtain ⟨k', v'⟩ := p
    by_cases hk : k = k'
    · simp [lookupA, hk] at h
      simp [setA, hk, h]
    · simp [lookupA, hk] at h
      simp [setA, hk, ih h]

theorem setA_setA {β : Type} (k : String) (v v' : β) (l : List (String × β)) :
    setA k v' (setA k v l) = setA k v' l := by
  induction l with
  | nil => simp [setA]
  | cons p rest ih =>
    obtain ⟨k', v''⟩ := p
    by_cases h : k = k' <;> simp [setA, h, ih]

theorem invoke_write_preserves (wf : Option WriteFunc) (buf : Bytes) (r : CurlResult)
    (os : OS) :
    ((invoke_write wf buf r os).2.1).file = r.file
    ∧ (invoke_write wf buf r os).2.2.openh = os.openh
    ∧ (invoke_write wf buf r os).2.2.closes = os.closes
    ∧ (invoke_write wf buf r os).2.2.netCalls = os.netCalls
    ∧ (invoke_write wf buf r os).2.2.out = os.out
    ∧ (invoke_write wf buf r os).2.2.next = os.next
    ∧ (invoke_write wf buf r os).2.2.failPaths = os.failPaths := by
  have hfile : ∀ (b : Bytes) (r' : CurlResult) (os' : OS),
      ((write_data_to_file b r' os').2.1).file = r'.file
      ∧ (write_data_to_file b r' os').2.2.openh = os'.openh
      ∧ (write_data_to_file b r' os').2.2.closes = os'.closes
      ∧ (write_data_to_file b r' os').2.2.netCalls = os'.netCalls
      ∧ (write_data_to_file b r' os').2.2.out = os'.out
      ∧ (write_data_to_file b r' os').2.2.next = os'.next
      ∧ (write_data_to_file b r' os').2.2.failPaths = os'.failPaths := by
    intro b r' os'
    cases hf : r'.file with
    | none => simp [write_data_to_file, hf]
    | some hd =>
      cases hl : lookupN hd os'.openh with
      | none => simp [write_data_to_file, hf, fwrite, hl]
      | some p => simp [write_data_to_file, hf, fwrite, hl]
  match wf with
  | none => simp [invoke_write]
  | some WriteFunc.toFile => exact hfile buf r os
  | some WriteFunc.toStr => simp [invoke_write, write_data_to_str]
  | some WriteFunc.toBoth =>
    have h1 := hfile buf r os
    simp only [invoke_write, write_data_to_file_and_str, write_data_to_str]
    exact ⟨h1.1, h1.2.1, h1.2.2.1, h1.2.2.2.1, h1.2.2.2.2.1, h1.2.2.2.2.2.1,
      h1.2.2.2.2.2.2⟩

theorem deliver_preserves (wf : Option WriteFunc) (chunks : List Bytes) (r : CurlResult)
    (os : OS) :
    ((deliver wf chunks r os).1).file = r.file
    ∧ (deliver wf chunks r os).2.openh = os.openh
    ∧ (deliver wf chunks r os).2.closes = os.closes
    ∧ (deliver wf chunks r os).2.netCalls = os.netCalls
    ∧ (deliver wf chunks r os).2.out = os.out
    ∧ (deliver wf chunks r os).2.next = os.next
    ∧ (deliver wf chunks r os).2.failPaths = os.failPaths := by
  induction chunks generalizing r os with
  | nil => simp [deliver]
  | cons c rest ih =>
    have h1 := invoke_write_preserves wf c r os
    have h2 := ih (invoke_write wf c r os).2.1 (invoke_write wf c r os).2.2
    simp only [deliver]
    refine ⟨?_, ?_, ?_, ?_, ?_, ?_, ?_⟩
    · rw [h2.1, h1.1]
    · rw [h2.2.1, h1.2.1]
    · rw [h2.2.2.1, h1.2.2.1]
    · rw [h2.2.2.2.1, h1.2.2.2.1]
    · rw [h2.2.2.2.2.1, h1.2.2.2.2.1]
    · rw [h2.2.2.2.2.2.1, h1.2.2.2.2.2.1]
    · rw [h2.2.2.2.2.2.2, h1.2.2.2.2.2.2]

theorem deliver_toStr (chunks : List Bytes) (r : CurlResult) (os : OS) :
    deliver (some WriteFunc.toStr) chunks r os
      = ({ r with str := r.str ++ chunks.flatten }, os) := by
  induction chunks generalizing r with
  | nil => cases r; simp [deliver]
  | cons c rest ih =>
    simp [deliver, invoke_write, write_data_to_str, ih, List.append_assoc]

theorem deliver_toFile (chunks : List Bytes) (r : CurlResult) (os : OS) (hd : Nat)
    (p : String) (d : Bytes) (hf : r.file = some hd) (ho : lookupN hd os.openh = some p)
    (hdisk : lookupA p os.disk = some d) :
    deliver (some WriteFunc.toFile) chunks r os
      = (r, { os with disk := setA p (d ++ chunks.flatten) os.disk }) := by
  induction chunks generalizing os d with
  | nil =>
    rw [deliver]
    cases os
    simp only []
    rw [List.flatten_nil, List.append_nil, setA_self p d _ hdisk]
  | cons c rest ih =>
    rw [deliver]
    simp only [invoke_write, write_data_to_file, hf, fwrite, ho, hdisk, Option.getD_some]
    rw [ih { os with disk := setA p (d ++ c) os.disk } (d ++ c)
      (by simpa using ho) (lookupA_setA_self p (d ++ c) os.disk)]
    simp [setA_setA, List.append_assoc]

theorem deliver_toBoth (chunks : List Bytes) (r : CurlResult) (os : OS) (hd : Nat)
    (p : String) (d : Bytes) (hf : r.file = some hd) (ho : lookupN hd os.openh = some p)
    (hdisk : lookupA p os.disk = some d) :
    deliver (some WriteFunc.toBoth) chunks r os
      = ({ r with str := r.str ++ chunks.flatten },
          { os with disk := setA p (d ++ chunks.flatten) os.disk }) := by
  induction chunks generalizing r os d with
  | nil =>
    rw [deliver]
    cases os; cases r
    simp only []
    rw [List.flatten_nil, List.append_nil, List.append_nil, setA_self p d _ hdisk]
  | cons c rest ih =>
    rw [deliver]
    simp only [invoke_write, write_data_to_file_and_str, write_data_to_file, hf, fwrite, ho,
      hdisk, Option.getD_some, write_data_to_str]
    rw [ih ⟨some hd, r.str ++ c⟩ { os with disk := setA p (d ++ c) os.disk } (d ++ c)
      rfl (by simpa using ho) (lookupA_setA_self p (d ++ c) os.disk)]
    simp [setA_setA, List.append_assoc]

/-! Claim theorems. -/

/-- C10: for every checksum string and every helper state,
`sha1_checksum` returns true — checksum verification is unconditionally
a no-op that never inspects the received content (the model takes the
whole helper state and ignores it, as the source body does). -/
theorem c10_checksum_noop (h : DownloadHelper) (c : String) : sha1_checksum h c = true :=
  rfl

/-- Fields of `perform` common to every outcome: the sink's file pointer
is nulled, exactly the previously open handle (none otherwise) is passed
to `fclose` before returning, and the returned flag is true exactly when
the transport code is `CURLE_OK`.  `perform` is a total function
returning a `Bool`, so transport failure is a reported value, never an
exception. -/
theorem perform_closes_and_reports (h : DownloadHelper) (ex : Exchange) (os : OS) :
    (perform h ex os).1 = (ex.code == 0)
    ∧ ((perform h ex os).2.1).res.file = none
    ∧ (perform h ex os).2.2.closes = os.closes ++ h.res.file.toList := by
  have hprev := deliver_preserves h.writefunc ex.chunks h.res
    { os with netCalls := os.netCalls + 1 }
  simp only [perform]
  cases hf : (deliver h.writefunc ex.chunks h.res { os with netCalls := os.netCalls + 1 }).1.file with
  | none =>
    have hfn : h.res.file = none := by rw [← hprev.1, hf]
    by_cases hc : ex.code = 0 <;> cases hu : h.progress_data.is_used <;>
      simp [hf, hfn, hc, hu, hprev.2.2.1, emit]
  | some hd =>
    have hfs : h.res.file = some hd := by rw [← hprev.1, hf]
    by_cases hc : ex.code = 0 <;> cases hu : h.progress_data.is_used <;>
      simp [hf, hfs, hc, hu, fclose, hprev.2.2.1, emit]

/-- Scenario for C4: a fresh helper is configured (for `STR` mode, so no
file handle is involved) and performed with a failing exchange whose
error text is "boom"; the result is the returned flag, the contents of
the error buffer that `get_err` exposes, and the sink's file pointer. -/
def c4_fail_run : Option (Bool × String × Option Nat) :=
  match set_options DownloadHelper.init DownloadMode.STR "u" "p"
      ⟨[], [], [], 0, [], 0, []⟩ with
  | Except.error _ => none
  | Except.ok (h1, os1) =>
    let r := perform h1 ⟨[[9]], 6, "boom"⟩ os1
    some (r.1, get_err r.2.1, r.2.1.res.file)

/-- C4: on a transport failure of a configured transfer, `perform` does
return failure, has nulled the file pointer, and throws nothing — but
the error-message buffer is NOT populated: `curl_easy_reset` at the top
of `set_options` dropped the `CURLOPT_ERRORBUFFER` registration made
only in the constructor, so curl's error text ("boom" here) never
reaches `errbuf` and `get_err` returns the empty string.  This refutes
the populated-buffer half of the claim. -/
theorem c4_errbuf_left_empty : c4_fail_run = some (false, "", none) :=
  rfl

/-- C8: when the mode writes to a file and opening the destination for
binary writing fails, `set_options` aborts immediately with a
`FileOpenError` carrying the path and the OS error code; no write
callback has been installed at that point (the error is not deferred to
`perform` — it is the result of the configure call itself). -/
theorem c8_configure_file_open_error (h : DownloadHelper) (mode : DownloadMode)
    (url path : String) (os : OS) (e : Nat)
    (hm : mode = DownloadMode.FILE ∨ mode = DownloadMode.FILE_AND_STR)
    (hf : lookupA path os.failPaths = some e) :
    ∃ h1 os1,
      set_options h mode url path os = Except.error ({ path := path, code := e }, h1, os1)
      ∧ h1.writefunc = none := by
  rcases hm with hm | hm <;> subst hm <;>
    cases hfc : h.res.file <;>
      simp [set_options, hfc, fopen_wb, fclose, hf]

/-- C8 witness: a concrete helper and a path whose open fails with
errno 13. -/
theorem c8_witness :
    ∃ h1 os1,
      set_options DownloadHelper.init DownloadMode.FILE "u" "p"
          ⟨[], [("p", 13)], [], 0, [], 0, []⟩
        = Except.error ({ path := "p", code := 13 }, h1, os1)
      ∧ h1.writefunc = none :=
  c8_configure_file_open_error DownloadHelper.init DownloadMode.FILE "u" "p"
    ⟨[], [("p", 13)], [], 0, [], 0, []⟩ 13 (Or.inl rfl) rfl

/-- C1: when the path already exists on disk, `download_cached_file`
returns exactly the bytes on disk when the payload is wanted and an
empty result otherwise, and the returned OS state is the input state
unchanged — in particular the network-exchange counter is untouched, so
no transport operation happened. -/
theorem c1_cached_fetch_hit (url path : String) (want : Bool) (helper : DownloadHelper)
    (os : OS) (ex : Exchange) (d : Bytes) (hd : lookupA path os.disk = some d) :
    download_cached_file url path want helper os ex
      = Except.ok ((if want then d else []), helper, os) := by
  cases want <;> simp [download_cached_file, file_exists, read_file, hd]

/-- C1 witness: a cached fetch of an existing two-byte file returns the
bytes on disk with the state unchanged. -/
theorem c1_witness :
    download_cached_file "u" "p" true DownloadHelper.init
        ⟨[("p", [1, 2])], [], [], 0, [], 0, []⟩ ⟨[], 0, ""⟩
      = Except.ok ([1, 2], DownloadHelper.init, ⟨[("p", [1, 2])], [], [], 0, [], 0, []⟩) :=
  c1_cached_fetch_hit "u" "p" true DownloadHelper.init
    ⟨[("p", [1, 2])], [], [], 0, [], 0, []⟩ ⟨[], 0, ""⟩ [1, 2] rfl

/-- Fields of `perform` on a helper freshly configured for a file-writing
mode: the buffer ends up holding the concatenated chunks in
`FILE_AND_STR` mode and stays empty in `FILE` mode, the installed write
callback survives, the exchange counts as exactly one network call, and
the destination file holds its previous contents followed by every
delivered chunk. -/
theorem perform_configured (u : String) (wf : WriteFunc) (hd : Nat) (eb : String)
    (rg : Bool) (pd : ProgressData) (ex : Exchange) (os : OS) (p : String) (d : Bytes)
    (hwf : wf = WriteFunc.toFile ∨ wf = WriteFunc.toBoth)
    (ho : lookupN hd os.openh = some p) (hdisk : lookupA p os.disk = some d) :
    (perform ⟨u, some wf, ⟨some hd, []⟩, eb, rg, pd⟩ ex os).2.1.res.str
        = (if wf = WriteFunc.toBoth then ex.chunks.flatten else [])
    ∧ (perform ⟨u, some wf, ⟨some hd, []⟩, eb, rg, pd⟩ ex os).2.1.writefunc = some wf
    ∧ (perform ⟨u, some wf, ⟨some hd, []⟩, eb, rg, pd⟩ ex os).2.2.netCalls = os.netCalls + 1
    ∧ lookupA p (perform ⟨u, some wf, ⟨some hd, []⟩, eb, rg, pd⟩ ex os).2.2.disk
        = some (d ++ ex.chunks.flatten) := by
  rcases hwf with hwf | hwf <;> subst hwf
  · simp only [perform]
    rw [deliver_toFile ex.chunks ⟨some hd, []⟩ { os with netCalls := os.netCalls + 1 } hd p d
      rfl (by simpa using ho) (by simpa using hdisk)]
    by_cases hc : ex.code = 0 <;> cases hu : pd.is_used <;>
      simp [hc, hu, fclose, emit, lookupA_setA_self]
  · simp only [perform]
    rw [deliver_toBoth ex.chunks ⟨some hd, []⟩ { os with netCalls := os.netCalls + 1 } hd p d
      rfl (by simpa using ho) (by simpa using hdisk)]
    by_cases hc : ex.code = 0 <;> cases hu : pd.is_used <;>
      simp [hc, hu, fclose, emit, lookupA_setA_self]

/-- C6: when the path does not exist, `download_cached_file` installs
the `FILE` write callback when the payload is unwanted and the
`FILE_AND_STR` one when it is wanted, performs exactly one network
exchange, leaves the destination file holding the received bytes, and
returns the helper's in-memory payload — the received bytes when
wanted, empty otherwise.  The hypothesis that the destination is
openable is the case in which configuration succeeds (the open-failure
case is C8). -/
theorem c6_cached_fetch_miss (url path : String) (want : Bool) (helper : DownloadHelper)
    (os : OS) (ex : Exchange)
    (hmiss : lookupA path os.disk = none)
    (hopen : lookupA path os.failPaths = none) :
    ∃ h2 os2,
      download_cached_file url path want helper os ex
        = Except.ok ((if want then ex.chunks.flatten else []), h2, os2)
      ∧ h2.writefunc = some (if want then WriteFunc.toBoth else WriteFunc.toFile)
      ∧ os2.netCalls = os.netCalls + 1
      ∧ lookupA path os2.disk = some ex.chunks.flatten := by
  have hset : ∃ osa : OS,
      set_options helper (if want then DownloadMode.FILE_AND_STR else DownloadMode.FILE)
          url path os
        = Except.ok
            (⟨url, some (if want then WriteFunc.toBoth else WriteFunc.toFile),
              ⟨some os.next, []⟩, helper.errbuf, false, helper.progress_data⟩, osa)
      ∧ lookupN os.next osa.openh = some path
      ∧ lookupA path osa.disk = some []
      ∧ osa.netCalls = os.netCalls := by
    cases want with
    | false =>
      cases hfc : helper.res.file with
      | none =>
        refine ⟨⟨setA path [] os.disk, os.failPaths, (os.next, path) :: os.openh,
          os.next + 1, os.closes, os.netCalls, os.out⟩, ?_, ?_, ?_, ?_⟩
        · simp [set_options, hfc, fopen_wb, hopen]
        · simp [lookupN]
        · simp [lookupA_setA_self]
        · rfl
      | some hd0 =>
        refine ⟨⟨setA path [] os.disk, os.failPaths,
          (os.next, path) :: removeN hd0 os.openh, os.next + 1, os.closes ++ [hd0],
          os.netCalls, os.out⟩, ?_, ?_, ?_, ?_⟩
        · simp [set_options, hfc, fopen_wb, fclose, hopen]
        · simp [lookupN]
        · simp [lookupA_setA_self]
        · rfl
    | true =>
      cases hfc : helper.res.file with
      | none =>
        refine ⟨⟨setA path [] os.disk, os.failPaths, (os.next, path) :: os.openh,
          os.next + 1, os.closes, os.netCalls, os.out⟩, ?_, ?_, ?_, ?_⟩
        · simp [set_options, hfc, fopen_wb, hopen]
        · simp [lookupN]
        · simp [lookupA_setA_self]
        · rfl
      | some hd0 =>
        refine ⟨⟨setA path [] os.disk, os.failPaths,
          (os.next, path) :: removeN hd0 os.openh, os.next + 1, os.closes ++ [hd0],
          os.netCalls, os.out⟩, ?_, ?_, ?_, ?_⟩
        · simp [set_options, hfc, fopen_wb, fclose, hopen]
        · simp [lookupN]
        · simp [lookupA_setA_self]
        · rfl
  obtain ⟨osa, hso, hN, hD, hC⟩ := hset
  have hp := perform_configured url (if want then WriteFunc.toBoth else WriteFunc.toFile)
    os.next helper.errbuf false helper.progress_data ex osa path []
    (by cases want <;> simp) hN hD
  refine ⟨(perform ⟨url, some (if want then WriteFunc.toBoth else WriteFunc.toFile),
      ⟨some os.next, []⟩, helper.errbuf, false, helper.progress_data⟩ ex osa).2.1,
    (perform ⟨url, some (if want then WriteFunc.toBoth else WriteFunc.toFile),
      ⟨some os.next, []⟩, helper.errbuf, false, helper.progress_data⟩ ex osa).2.2, ?_, ?_, ?_, ?_⟩
  · simp only [download_cached_file, file_exists, hmiss, Option.isSome_none,
      Bool.false_eq_true, if_false, hso, get_str]
    rw [hp.1]
    cases want <;> simp
  · rw [hp.2.1]
  · rw [hp.2.2.1, hC]
  · rw [hp.2.2.2]
    simp

/-- C6 witness: a cache miss with two delivered chunks populates the
file and returns the payload, with exactly one network call. -/
theorem c6_witness :
    ∃ h2 os2,
      download_cached_file "u" "p" true DownloadHelper.init ⟨[], [], [], 0, [], 0, []⟩
          ⟨[[1], [2]], 0, ""⟩
        = Except.ok ([1, 2], h2, os2)
      ∧ h2.writefunc = some WriteFunc.toBoth
      ∧ os2.netCalls = 1
      ∧ lookupA "p" os2.disk = some [1, 2] :=
  c6_cached_fetch_miss "u" "p" true DownloadHelper.init ⟨[], [], [], 0, [], 0, []⟩
    ⟨[[1], [2]], 0, ""⟩ rfl rfl

/-- C7: `write_data_to_file_and_str` is exactly the file write followed
by the string write with the file write's count returned (first
conjunct, definitional); one delivered chunk is appended to both the
file and the buffer and the reported count is the file write's full
count; consequently, over any sequence of delivered chunks, the file and
the in-memory buffer receive the same byte sequence — the concatenation
of the chunks. -/
theorem c7_write_to_both (buf : Bytes) (chunks : List Bytes) (r : CurlResult) (os : OS)
    (hd : Nat) (p : String) (d : Bytes) (hf : r.file = some hd)
    (ho : lookupN hd os.openh = some p) (hdisk : lookupA p os.disk = some d) :
    write_data_to_file_and_str buf r os
      = ((write_data_to_file buf r os).1,
          (write_data_to_str buf (write_data_to_file buf r os).2.1
              (write_data_to_file buf r os).2.2).2)
    ∧ (write_data_to_file_and_str buf r os).1 = buf.length
    ∧ (write_data_to_file_and_str buf r os).2.1.str = r.str ++ buf
    ∧ lookupA p (write_data_to_file_and_str buf r os).2.2.disk = some (d ++ buf)
    ∧ (deliver (some WriteFunc.toBoth) chunks r os).1.str = r.str ++ chunks.flatten
    ∧ lookupA p (deliver (some WriteFunc.toBoth) chunks r os).2.disk
        = some (d ++ chunks.flatten) := by
  refine ⟨rfl, ?_, ?_, ?_, ?_, ?_⟩
  · simp [write_data_to_file_and_str, write_data_to_file, hf, fwrite, ho]
  · simp [write_data_to_file_and_str, write_data_to_file, hf, fwrite, ho, write_data_to_str]
  · simp [write_data_to_file_and_str, write_data_to_file, hf, fwrite, ho, hdisk,
      write_data_to_str, lookupA_setA_self]
  · rw [deliver_toBoth chunks r os hd p d hf ho hdisk]
  · rw [deliver_toBoth chunks r os hd p d hf ho hdisk]
    simp [lookupA_setA_self]

/-- C7 witness: a concrete two-chunk delivery into an open file and the
buffer. -/
theorem c7_witness :
    write_data_to_file_and_str [3] ⟨some 0, []⟩ ⟨[("p", [])], [], [(0, "p")], 1, [], 0, []⟩
      = ((write_data_to_file [3] ⟨some 0, []⟩ ⟨[("p", [])], [], [(0, "p")], 1, [], 0, []⟩).1,
          (write_data_to_str [3]
              (write_data_to_file [3] ⟨some 0, []⟩
                  ⟨[("p", [])], [], [(0, "p")], 1, [], 0, []⟩).2.1
              (write_data_to_file [3] ⟨some 0, []⟩
                  ⟨[("p", [])], [], [(0, "p")], 1, [], 0, []⟩).2.2).2)
    ∧ (write_data_to_file_and_str [3] ⟨some 0, []⟩
        ⟨[("p", [])], [], [(0, "p")], 1, [], 0, []⟩).1 = [3].length
    ∧ (write_data_to_file_and_str [3] ⟨some 0, []⟩
        ⟨[("p", [])], [], [(0, "p")], 1, [], 0, []⟩).2.1.str = [] ++ [3]
    ∧ lookupA "p" (write_data_to_file_and_str [3] ⟨some 0, []⟩
        ⟨[("p", [])], [], [(0, "p")], 1, [], 0, []⟩).2.2.disk = some ([] ++ [3])
    ∧ (deliver (some WriteFunc.toBoth) [[4], [5, 6]] ⟨some 0, []⟩
        ⟨[("p", [])], [], [(0, "p")], 1, [], 0, []⟩).1.str = [] ++ [[4], [5, 6]].flatten
    ∧ lookupA "p" (deliver (some WriteFunc.toBoth) [[4], [5, 6]] ⟨some 0, []⟩
        ⟨[("p", [])], [], [(0, "p")], 1, [], 0, []⟩).2.disk
        = some ([] ++ [[4], [5, 6]].flatten) :=
  c7_write_to_both [3] [[4], [5, 6]] ⟨some 0, []⟩
    ⟨[("p", [])], [], [(0, "p")], 1, [], 0, []⟩ 0 "p" [] rfl rfl rfl

/-- Scenario for C2: a fresh helper is configured for `FILE` mode (the
open succeeds, handle 5), then reconfigured for `STR` mode, then
performed; the result is the final `fclose` log. -/
def c2_close_log : Option (List Nat) :=
  match set_options DownloadHelper.init DownloadMode.FILE "u1" "p1"
      ⟨[], [], [], 5, [], 0, []⟩ with
  | Except.error _ => none
  | Except.ok (h1, os1) =>
    match set_options h1 DownloadMode.STR "u2" "p2" os1 with
    | Except.error _ => none
    | Except.ok (h2, os2) => some ((perform h2 ⟨[[9]], 0, ""⟩ os2).2.2.closes)

/-- C2: the file handle opened by the first configure (id 5) is passed
to `fclose` twice — once by the second configure (which closes the
pointer but does not null it, so `STR` mode leaves it dangling) and a
second time by `perform`, which sees the still-non-null pointer.  This
refutes the close-exactly-once invariant: the log records two closes of
the same handle. -/
theorem c2_double_close : c2_close_log = some [5, 5] :=
  rfl

/-- Scenario for C3 and C5: one transfer is registered (easy handle 7 or
9), `curl_multi_perform` succeeds reporting one running handle, and
`curl_multi_poll` then fails with a nonzero `CURLMcode` (95). -/
def c3_poll_error_trace : List MultiStep :=
  [⟨0, 1, 95, []⟩]

/-- C3: when the polling primitive itself reports an error,
`perform_blocking` still returns success — the source breaks out of the
drain loop but returns true on every path (its error handling is a
`TODO`), so a multiplexer-level error is never surfaced as failure. -/
theorem c3_poll_error_still_success :
    perform_blocking ⟨[(7, DownloadHelper.init)], 1⟩ c3_poll_error_trace
      = some (true, ⟨[(7, DownloadHelper.init)], 1⟩) :=
  rfl

/-- Scenario for C5: same shape as C3's, with its own trace value. -/
def c5_poll_error_trace : List MultiStep :=
  [⟨0, 1, 3, []⟩]

/-- C5: after `perform_blocking` returns from a run aborted by a polling
error, the registration mapping still holds the registered transfer —
`get_helper_count` is 1, not 0 — contradicting the code's own
`assert(helpers.empty())` (a debug-build check that does not run in
release builds). -/
theorem c5_mapping_nonempty_after_error :
    (perform_blocking ⟨[(9, DownloadHelper.init)], 1⟩ c5_poll_error_trace).map
        (fun r => get_helper_count r.2)
      = some 1 :=
  rfl

/-- C9: at `dlnow/dltotal = 0.5` (here 1/2) the callback renders exactly
5 filled segments followed by 5 blank ones; but `add_progress_meter` is
a no-op (its whole body is commented out in the source), so `is_used`
stays false and `perform` emits no trailing newline even after a meter
was attached — the claim's "newline iff attached" fails in the attached
direction. -/
theorem c9_progress_bar_and_missing_newline :
    (progress_callback ⟨false, ProgressStyle.default_style, "t"⟩ 2 1
        ⟨[], [], [], 0, [], 0, []⟩).2.out
      = [OutEvent.repl ("t" ++ "[" ++ "....." ++ "     " ++ "]")]
    ∧ add_progress_meter DownloadHelper.init ProgressStyle.default_style "t"
        = DownloadHelper.init
    ∧ (perform (add_progress_meter DownloadHelper.init ProgressStyle.default_style "t")
        ⟨[], 0, ""⟩ ⟨[], [], [], 0, [], 0, []⟩).2.2.out = [] := by
  have hround : round ((1 : ℚ) / 2 * 10) = 5 := by norm_num [round_eq]
  refine ⟨?_, rfl, rfl⟩
  simp only [progress_callback, emit]
  norm_num [hround]
  decide

end mcvm
